import Mathlib

set_option autoImplicit false

/-!  Shallow embedding of the online neurofeedback protocol
(src/neurodecode/protocols/NeuroFeedback/online_NeuroFeedback.py).

Real-valued samples, feature values, timers and volumes are modelled as
rationals; NumPy's NaN missing-value marker in the feature history is
modelled as `none : Option ℚ`.  Python exceptions that escape a function
are modelled with `Option`/`Except` error results.  -/

namespace NeuroFeedback

/-- Lines 27-30, `add_to_queue(xs, x)`: `xs[:-1] = xs[1:]; xs[-1] = x`.
Every element is shifted one slot toward the front (the element at index 0
is dropped) and `x` is written into the last slot.  NumPy raises on an
empty array; theorems about this function assume `xs ≠ []`. -/
def add_to_queue (xs : List (Option ℚ)) (x : ℚ) : List (Option ℚ) :=
  xs.tail ++ [some x]

/-- Line 275, `measured_psd_ratios[~np.isnan(measured_psd_ratios)]`:
boolean-mask selection of the non-NaN entries of the history, in order. -/
def nanFilter : List (Option ℚ) → List ℚ
  | [] => []
  | none :: t => nanFilter t
  | some y :: t => y :: nanFilter t

/-- `np.max`: the maximum of an array, raising `ValueError` (modelled as
`none`) on an empty one. -/
def npMax (xs : List ℚ) : Option ℚ :=
  match xs with
  | [] => none
  | y :: ys => some (ys.foldl max y)

/-- `np.mean`: the arithmetic mean of an array.  The only use site applies
it to one entry per channel of a window, which is nonempty. -/
def npMean (xs : List ℚ) : ℚ :=
  xs.sum / (xs.length : ℚ)

/-- Lines 164-178, `compute_psd(window, psde, psd_ref)`: the multitaper
estimator `psde.transform` is the external spectral collaborator, so its
reshaped channels × frequencies output matrix is this function's input.
The function sums power over the frequency axis per channel (`axis=1`),
takes the mean over channels, and divides by the reference scalar. -/
def compute_psd (psd : List (List ℚ)) (psd_ref : ℚ) : ℚ :=
  npMean (psd.map List.sum) / psd_ref

/-- Lines 32-43, `mix_sounds(style, sounds, feature_value)`.  The two
`pygame` sound handles are modelled by their current volumes; the result
is the pair of volumes after the call, and `none` models the
`ValueError('MusicMixStyle not supported')` raise, in which case no
volume has been set. -/
def mix_sounds (style : String) (sounds : ℚ × ℚ) (feature_value : ℚ) : Option (ℚ × ℚ) :=
  if style = "REPLACING" then some (feature_value, 1 - feature_value)
  else if style = "ADDITIVE_NEGATIVE" then some (sounds.1, 1 - feature_value)
  else if style = "ADDITIVE_POSITIVE" then some (sounds.1, feature_value)
  else none

/-- The configuration object handed to `check_config` and `run`.
`attrs` records which attribute names are defined on the object
(`hasattr`); `alphaFreqKeys` and `thetaFreqKeys` record the keys of the
`ALPHA_FREQ` and `THETA_FREQ` dicts; the typed fields carry the values
the online loop reads (meaningful only when the matching name is listed
in `attrs`). -/
structure Cfg where
  attrs : List String
  alphaFreqKeys : List String
  thetaFreqKeys : List String
  FEATURE_TYPE : String
  MUSIC_MIX_STYLE : String
  ALPHA_REF : ℚ
  THETA_REF : ℚ
  GLOBAL_TIME : ℚ
  TIMER_SLEEP : ℚ
deriving DecidableEq

/-- Lines 50-62, `critical_vars['COMMON']`: the attribute names whose
absence makes `check_config` raise `RuntimeError`. -/
def critical_common : List String :=
  ["ALPHA_CHANNELS", "THETA_CHANNELS", "ALPHA_THR", "THETA_THR",
   "ALPHA_REF", "THETA_REF", "MUSIC_STATE_1_PATH", "MUSIC_STATE_2_PATH",
   "FEATURE_TYPE", "MUSIC_MIX_STYLE", "WINDOWSIZE", "STREAMBUFFER"]

/-- Lines 67-74, `optional_vars`: names that `check_config` fills in with
defaults when missing (`AMP_NAME`, `AMP_SERIAL`, `SPATIAL_FILTER`,
`SPATIAL_CHANNELS` default to `None`; `GLOBAL_TIME` to `30.0 * 60`;
`NJOBS` to `1`). -/
def optional_var_names : List String :=
  ["AMP_NAME", "AMP_SERIAL", "SPATIAL_FILTER", "SPATIAL_CHANNELS",
   "GLOBAL_TIME", "NJOBS"]

/-- Lines 97-100: `setattr` of each missing optional name with its
default.  The only optional value the loop later reads is
`GLOBAL_TIME = 30.0 * 60`. -/
def apply_defaults (cfg : Cfg) : Cfg :=
  { cfg with
    attrs := cfg.attrs ++ optional_var_names.filter (fun k => !cfg.attrs.contains k),
    GLOBAL_TIME := if cfg.attrs.contains "GLOBAL_TIME" then cfg.GLOBAL_TIME else 30 * 60 }

/-- Lines 46-100, `check_config(cfg)`: raises `RuntimeError` (modelled as
`none`) when a required attribute name or a `min`/`max` key of the two
frequency dicts is missing; otherwise fills in optional defaults and
returns the configuration.  Only the presence of names is inspected,
never the values bound to them. -/
def check_config (cfg : Cfg) : Option Cfg :=
  if critical_common.all (fun k => cfg.attrs.contains k)
      && cfg.attrs.contains "ALPHA_FREQ"
      && cfg.alphaFreqKeys.contains "min" && cfg.alphaFreqKeys.contains "max"
      && cfg.attrs.contains "THETA_FREQ"
      && cfg.thetaFreqKeys.contains "min" && cfg.thetaFreqKeys.contains "max"
  then some (apply_defaults cfg) else none

/-- Python exceptions that statements of the main loop can raise.  No
`try`/`except` surrounds the loop body in `run`, so raising any of them
terminates the session. -/
inductive PyError where
  | nameError
  | valueError
  | attributeError
deriving DecidableEq

/-- Per-cycle external input: the acquisition timestamps returned by
`sr.get_window()` and the spectral estimator's channels × frequencies
output for each band on this cycle's (spatially filtered) window. -/
structure CycleInput where
  tslist : List ℚ
  psd_alpha : List (List ℚ)
  psd_theta : List (List ℚ)
deriving DecidableEq

/-- The loop-carried state of `run`.  Lines 234-235 initialise
`last_ratio` and `measured_psd_ratios`; `vol1`/`vol2` start at the
`init_feedback_sounds` volumes (lines 158-159).  `last_ts` has no
initialisation anywhere before the loop, so `none` models the name being
unbound.  `warnings` counts staleness warnings logged, `staleSleeps` the
`time.sleep(1)` calls of line 251, and `paced` the
`sleep_atleast(cfg.TIMER_SLEEP)` calls of line 287. -/
structure LoopState where
  last_ts : Option ℚ
  last_ratio : Option ℚ
  measured_psd_ratios : List (Option ℚ)
  vol1 : ℚ
  vol2 : ℚ
  warnings : Nat
  staleSleeps : Nat
  paced : Nat
deriving DecidableEq

/-- Lines 229-235: the state on entry to the `while` loop.  The history
length is read from the configuration key `window_size_psd_max`
(line 235), a key no shown configuration defines and `check_config`
neither requires nor defaults, so it is taken here as a parameter. -/
def initState (window_size_psd_max : Nat) : LoopState :=
  { last_ts := none
    last_ratio := none
    measured_psd_ratios := List.replicate window_size_psd_max none
    vol1 := 1
    vol2 := 0
    warnings := 0
    staleSleeps := 0
    paced := 0 }

/-- Lines 262-268: the feature dispatch on `cfg.FEATURE_TYPE`.  Either
recognised value binds `feature`; for any other value no branch runs, the
name `feature` stays unbound, and the read at line 274 raises
`NameError` — modelled as `none`. -/
def computeFeature (cfg : Cfg) (inp : CycleInput) : Option ℚ :=
  if cfg.FEATURE_TYPE = "THETA" then
    some (compute_psd inp.psd_theta cfg.THETA_REF)
  else if cfg.FEATURE_TYPE = "ALPHA_THETA" then
    some (compute_psd inp.psd_alpha cfg.ALPHA_REF /
          compute_psd inp.psd_theta cfg.THETA_REF)
  else none

/-- Lines 274-275: push the feature into the history with
`add_to_queue`, then divide the feature by the maximum of the non-NaN
entries of the *updated* history (push happens first in the source).
`none` in the second component models the `ValueError` that `np.max`
raises on an empty selection. -/
def feedbackStep (hist : List (Option ℚ)) (feature : ℚ) :
    List (Option ℚ) × Option ℚ :=
  let hist2 := add_to_queue hist feature
  (hist2, (npMax (nanFilter hist2)).map (fun m => feature / m))

/-- Normaliser transcribed from the specification's words (§4.3, steps
(1)-(3)): the maximum is taken over the non-missing entries of the
history *before* the new feature is inserted, the ratio is computed, and
only then is the feature pushed.  Stated only for comparison against the
source-derived `feedbackStep`. -/
def normalizeSpec (hist : List (Option ℚ)) (feature : ℚ) :
    List (Option ℚ) × Option ℚ :=
  (add_to_queue hist feature, (npMax (nanFilter hist)).map (fun m => feature / m))

/-- Lines 243-287: one iteration of the `while` body as a state
transformer.  `Except.error` models an uncaught Python exception
escaping `run` (there is no handler anywhere in the loop).  Note that
`last_ratio` is read at lines 277-278 but never reassigned anywhere in
`run`, and `last_ts` is assigned only at line 286. -/
def cycleBody (cfg : Cfg) (inp : CycleInput) (s : LoopState) :
    Except PyError LoopState :=
  match s.last_ts with
  | none => .error .nameError
  | some lt =>
    let tsnew := inp.tslist.filter (fun t => lt < t)
    if tsnew.length = 0 then
      .ok { s with warnings := s.warnings + 1, staleSleeps := s.staleSleeps + 1 }
    else
      match computeFeature cfg inp with
      | none => .error .nameError
      | some feature =>
        match feedbackStep s.measured_psd_ratios feature with
        | (_, none) => .error .valueError
        | (hist2, some current_music_ratio) =>
          let applied_music_ratio :=
            match s.last_ratio with
            | some lr => lr + (current_music_ratio - lr) * (1 / 4)
            | none => current_music_ratio
          match mix_sounds cfg.MUSIC_MIX_STYLE (s.vol1, s.vol2) applied_music_ratio with
          | none => .error .valueError
          | some (v1, v2) =>
            .ok { s with measured_psd_ratios := hist2
                         vol1 := v1
                         vol2 := v2
                         last_ts := inp.tslist.getLast?
                         paced := s.paced + 1 }

/-- What the local name `state` of `run` is bound to: the shared
`mp.Value` controller signal passed as argument, or a plain Python
string after a rebinding. -/
inductive StateBinding where
  | sharedSignal
  | strVal (s : String)
deriving DecidableEq

/-- Line 227: `state = 'RATIO_FEEDBACK'` rebinds the local name `state`
from the shared controller signal to a string. -/
def stateAfterLine227 : StateBinding := .strVal "RATIO_FEEDBACK"

/-- Evaluation of the expression `state.value`: on the shared `mp.Value`
it yields the controller's integer (0 stop, 1 run, 2 wait); a `str` has
no attribute `value`, so the access raises `AttributeError` (`none`). -/
def readValueAttr (shared : Int) : StateBinding → Option Int
  | .sharedSignal => some shared
  | .strVal _ => none

/-- Line 237 followed by one body iteration: the guard
`state.value == 1 and global_timer.sec() < cfg.GLOBAL_TIME` is
evaluated on the current binding of `state`; `.ok none` models a clean
loop exit, `.ok (some s)` a completed iteration. -/
def sessionStep (cfg : Cfg) (shared : Int) (stateBinding : StateBinding)
    (elapsed : ℚ) (inp : CycleInput) (s : LoopState) :
    Except PyError (Option LoopState) :=
  match readValueAttr shared stateBinding with
  | none => .error .attributeError
  | some v =>
    if v = 1 ∧ elapsed < cfg.GLOBAL_TIME then
      (cycleBody cfg inp s).map some
    else
      .ok none

/-- Concrete configuration with both enumerated options set to recognised
values; its attribute list is exactly what `check_config` requires. -/
def cfgTheta : Cfg :=
  { attrs := critical_common ++ ["ALPHA_FREQ", "THETA_FREQ"]
    alphaFreqKeys := ["min", "max"]
    thetaFreqKeys := ["min", "max"]
    FEATURE_TYPE := "THETA"
    MUSIC_MIX_STYLE := "REPLACING"
    ALPHA_REF := 1
    THETA_REF := 1
    GLOBAL_TIME := 1800
    TIMER_SLEEP := 1 }

/-- Concrete configuration identical to `cfgTheta` except that the two
enumerated options carry unrecognised values. -/
def cfgBadEnums : Cfg :=
  { attrs := critical_common ++ ["ALPHA_FREQ", "THETA_FREQ"]
    alphaFreqKeys := ["min", "max"]
    thetaFreqKeys := ["min", "max"]
    FEATURE_TYPE := "BETA"
    MUSIC_MIX_STYLE := "BOGUS"
    ALPHA_REF := 1
    THETA_REF := 1
    GLOBAL_TIME := 1800
    TIMER_SLEEP := 1 }

/-- Concrete configuration identical to `cfgTheta` except that only the
mix policy carries an unrecognised value. -/
def cfgBadMix : Cfg :=
  { attrs := critical_common ++ ["ALPHA_FREQ", "THETA_FREQ"]
    alphaFreqKeys := ["min", "max"]
    thetaFreqKeys := ["min", "max"]
    FEATURE_TYPE := "THETA"
    MUSIC_MIX_STYLE := "BOGUS"
    ALPHA_REF := 1
    THETA_REF := 1
    GLOBAL_TIME := 1800
    TIMER_SLEEP := 1 }

/-- A mid-session loop state whose `last_ts` is bound (as it is from the
second successful cycle on) and whose history of length 2 is still all
missing values. -/
def midState : LoopState :=
  { last_ts := some 0
    last_ratio := none
    measured_psd_ratios := [none, none]
    vol1 := 1
    vol2 := 0
    warnings := 0
    staleSleeps := 0
    paced := 0 }

/-- A fresh cycle input whose single timestamp is newer than
`midState.last_ts` and whose one-channel window has unit band power. -/
def inpA : CycleInput := { tslist := [1], psd_alpha := [[1]], psd_theta := [[1]] }

/-- A second fresh cycle input with band power one half. -/
def inpB : CycleInput := { tslist := [2], psd_alpha := [[1]], psd_theta := [[1 / 2]] }

/-- The loop state after running `cycleBody cfgTheta inpA midState`. -/
def midState2 : LoopState :=
  { last_ts := some 1
    last_ratio := none
    measured_psd_ratios := [none, some 1]
    vol1 := 1
    vol2 := 0
    warnings := 0
    staleSleeps := 0
    paced := 1 }

/-- The loop state after running `cycleBody cfgTheta inpB midState2`. -/
def endState : LoopState :=
  { last_ts := some 2
    last_ratio := none
    measured_psd_ratios := [some 1, some (1 / 2)]
    vol1 := 1 / 2
    vol2 := 1 / 2
    warnings := 0
    staleSleeps := 0
    paced := 2 }

/-- A mid-session loop state used to exercise the staleness branch. -/
def staleState : LoopState :=
  { last_ts := some 5
    last_ratio := some (1 / 2)
    measured_psd_ratios := [some 1, none]
    vol1 := 3 / 4
    vol2 := 1 / 4
    warnings := 2
    staleSleeps := 1
    paced := 3 }

/-- A cycle input none of whose timestamps exceeds `staleState.last_ts`. -/
def staleInp : CycleInput := { tslist := [3, 5], psd_alpha := [[1]], psd_theta := [[1]] }

/-! ### Helper lemmas on folded maxima and the NaN filter -/

theorem le_foldl_max (l : List ℚ) : ∀ a : ℚ, a ≤ l.foldl max a := by
  induction l with
  | nil => intro a; exact le_rfl
  | cons b t ih => intro a; exact le_trans (le_max_left a b) (ih (max a b))

theorem mem_le_foldl_max (l : List ℚ) : ∀ a y : ℚ, y ∈ l → y ≤ l.foldl max a := by
  induction l with
  | nil => intro a y hy; cases hy
  | cons b t ih =>
    intro a y hy
    rcases List.mem_cons.mp hy with rfl | hmem
    · exact le_trans (le_max_right a y) (le_foldl_max t (max a y))
    · exact ih (max a b) y hmem

theorem foldl_max_le (l : List ℚ) :
    ∀ a x : ℚ, a ≤ x → (∀ y ∈ l, y ≤ x) → l.foldl max a ≤ x := by
  induction l with
  | nil => intro a x ha _; exact ha
  | cons b t ih =>
    intro a x ha hl
    exact ih (max a b) x (max_le ha (hl b (List.mem_cons_self b t)))
      (fun y hy => hl y (List.mem_cons_of_mem b hy))

theorem foldl_max_mem (l : List ℚ) : ∀ a : ℚ, l.foldl max a = a ∨ l.foldl max a ∈ l := by
  induction l with
  | nil => intro a; exact Or.inl rfl
  | cons b t ih =>
    intro a
    rcases ih (max a b) with h | h
    · rcases max_choice a b with h2 | h2
      · exact Or.inl (by rw [List.foldl_cons, h, h2])
      · exact Or.inr (by rw [List.foldl_cons, h, h2]; exact List.mem_cons_self b t)
    · exact Or.inr (List.mem_cons_of_mem b (by rw [List.foldl_cons]; exact h))

/-- When `np.max` returns a value, that value is an element of the array
and dominates every element. -/
theorem npMax_spec {l : List ℚ} {m : ℚ} (h : npMax l = some m) :
    m ∈ l ∧ ∀ y ∈ l, y ≤ m := by
  match l, h with
  | y :: ys, h =>
    have hm : ys.foldl max y = m := by simpa [npMax] using h
    constructor
    · rcases foldl_max_mem ys y with h2 | h2
      · rw [← hm, h2]; exact List.mem_cons_self y ys
      · rw [← hm]; exact List.mem_cons_of_mem y h2
    · intro z hz
      rw [← hm]
      rcases List.mem_cons.mp hz with rfl | hmem
      · exact le_foldl_max ys z
      · exact mem_le_foldl_max ys y z hmem

/-- `np.max` of a nonempty array returns a value. -/
theorem npMax_isSome_of_ne_nil {l : List ℚ} (h : l ≠ []) : ∃ m, npMax l = some m := by
  cases l with
  | nil => exact absurd rfl h
  | cons a t => exact ⟨t.foldl max a, rfl⟩

/-- `np.max` of an array ending in an element dominating all others is
that final element. -/
theorem npMax_concat_of_le {zs : List ℚ} {x : ℚ} (h : ∀ y ∈ zs, y ≤ x) :
    npMax (zs ++ [x]) = some x := by
  cases zs with
  | nil => rfl
  | cons z t =>
    have hle : t.foldl max z ≤ x :=
      foldl_max_le t z x (h z (List.mem_cons_self z t))
        (fun y hy => h y (List.mem_cons_of_mem z hy))
    have h1 : (t ++ [x]).foldl max z = max (t.foldl max z) x := by
      rw [List.foldl_append]; rfl
    show some ((t ++ [x]).foldl max z) = some x
    rw [h1, max_eq_right hle]

/-- Membership in the NaN-filtered view is membership of a non-missing
slot in the buffer. -/
theorem mem_nanFilter {l : List (Option ℚ)} {y : ℚ} : y ∈ nanFilter l ↔ some y ∈ l := by
  induction l with
  | nil => simp [nanFilter]
  | cons h t ih => cases h <;> simp [nanFilter, ih]

theorem nanFilter_append (l l2 : List (Option ℚ)) :
    nanFilter (l ++ l2) = nanFilter l ++ nanFilter l2 := by
  induction l with
  | nil => simp [nanFilter]
  | cons h t ih => cases h <;> simp [nanFilter, ih]

/-- Whether an optional value is present does not depend on which payload
the positive branch carries. -/
theorem isSome_if_some {α : Type} {c : Prop} [Decidable c] (a b : α) :
    (if c then some a else none).isSome = (if c then some b else none).isSome := by
  by_cases h : c <;> simp [h]

/-! ### Claim theorems -/

/-- C1, counterexample: the claim says the normaliser computes
`current_max` over the history *before* the new feature is pushed, so
that the mix ratio never depends on the current cycle's value.  The
source (lines 274-275) pushes first: on history `[some 4]` with new
feature `8` the code returns ratio `1` (the freshly pushed `8` is the
maximum), while the claimed pre-insertion maximum `4` would give `2`. -/
theorem C1_counterexample :
    (feedbackStep [some 4] 8).2 = some 1 ∧
    (normalizeSpec [some 4] 8).2 = some 2 ∧
    some (1 : ℚ) ≠ some (2 : ℚ) := by
  refine ⟨?_, ?_, by norm_num⟩
  · norm_num [feedbackStep, add_to_queue, nanFilter, npMax]
  · norm_num [normalizeSpec, add_to_queue, nanFilter, npMax]

/-- C1, amended: the normaliser first pushes the feature into the history
(evicting the oldest slot) and only then computes the maximum over the
non-missing entries of the *updated* history, which includes the new
value; consequently the ratio depends on the current cycle's value, and
whenever the feature is positive and at least every past non-missing
entry the returned ratio is exactly `1`. -/
theorem C1_amended (hist : List (Option ℚ)) (x : ℚ)
    (hne : hist ≠ []) (hpos : 0 < x) (hmax : ∀ y ∈ nanFilter hist, y ≤ x) :
    (feedbackStep hist x).1 = hist.tail ++ [some x] ∧
    (feedbackStep hist x).2 = some 1 := by
  constructor
  · rfl
  · have htail : ∀ y ∈ nanFilter hist.tail, y ≤ x := by
      intro y hy
      apply hmax
      rw [mem_nanFilter] at hy ⊢
      cases hist with
      | nil => exact absurd rfl hne
      | cons h t => exact List.mem_cons_of_mem h hy
    have heq : nanFilter (add_to_queue hist x) = nanFilter hist.tail ++ [x] := by
      unfold add_to_queue
      rw [nanFilter_append]
      rfl
    show (npMax (nanFilter (add_to_queue hist x))).map (fun m => x / m) = some 1
    rw [heq, npMax_concat_of_le htail]
    simp [div_self hpos.ne']

/-- Witness for `C1_amended` at history `[none, some 2]` and feature `3`. -/
theorem C1_amended_witness :
    (feedbackStep [none, some 2] 3).1 = [some 2, some 3] ∧
    (feedbackStep [none, some 2] 3).2 = some 1 :=
  C1_amended [none, some 2] 3 (by decide) (by decide) (by decide)

/-- C2: the claim says the controller signal is re-read at every cycle
boundary so that setting it to STOP exits the loop.  Line 227 rebinds the
local name `state` to the string `'RATIO_FEEDBACK'`, so the guard of
line 237 evaluates `.value` on a string: for every shared-signal value
(STOP included) and every elapsed time, the first guard evaluation
raises `AttributeError` and the shared signal is never consulted. -/
theorem C2_guard_never_reads_signal (cfg : Cfg) (shared : Int) (elapsed : ℚ)
    (inp : CycleInput) (s : LoopState) :
    sessionStep cfg shared stateAfterLine227 elapsed inp s = .error .attributeError := rfl

/-- C3: the claim says the smoothed ratio of the previous cycle is stored
and blended into the next cycle's output.  `last_ratio` is never
reassigned in `run`, so every cycle takes the first-call branch: after a
cycle with mix ratio `1`, a cycle with ratio `1/2` outputs `1/2` (visible
as `vol1` under the REPLACING policy) instead of the claimed
`1 + (1/2 - 1) * 0.25 = 7/8`, and `last_ratio` is still `None`. -/
theorem C3_smoother_never_updates :
    cycleBody cfgTheta inpA midState = .ok midState2 ∧
    cycleBody cfgTheta inpB midState2 = .ok endState ∧
    endState.last_ratio = none ∧
    endState.vol1 = 1 / 2 ∧
    (1 / 2 : ℚ) ≠ 1 + (1 / 2 - 1) * (1 / 4) := by
  refine ⟨?_, ?_, rfl, rfl, by norm_num⟩
  · norm_num [cycleBody, cfgTheta, inpA, midState, midState2, computeFeature,
      compute_psd, npMean, feedbackStep, add_to_queue, nanFilter, npMax, mix_sounds]
  · norm_num [cycleBody, cfgTheta, inpB, midState2, endState, computeFeature,
      compute_psd, npMean, feedbackStep, add_to_queue, nanFilter, npMax, mix_sounds]

/-- C4, counterexample: the claim says an unrecognised `FEATURE_TYPE` or
`MUSIC_MIX_STYLE` makes validation fail fatally at start-up.
`check_config` accepts `cfgBadEnums` (unrecognised values for both), and
the bad `FEATURE_TYPE` is first hit mid-session inside a cycle, where the
dispatch binds no `feature` and line 274 raises `NameError`. -/
theorem C4_counterexample :
    check_config cfgBadEnums = some (apply_defaults cfgBadEnums) ∧
    cycleBody cfgBadEnums inpA midState = .error .nameError := by
  refine ⟨rfl, rfl⟩

/-- C4, amended: `check_config` validates only which names are defined,
never the values bound to them — acceptance is unchanged under any
change of the `FEATURE_TYPE`/`MUSIC_MIX_STYLE` values — so an
unrecognised enumerated value passes start-up validation and is first
encountered mid-session inside a cycle: an unrecognised `FEATURE_TYPE`
raises `NameError` at the line-274 read of the never-bound `feature`,
and a recognised `FEATURE_TYPE` with an unrecognised `MUSIC_MIX_STYLE`
reaches `mix_sounds`, which raises the unsupported-policy
`ValueError`. -/
theorem C4_amended :
    (∀ cfg cfg2 : Cfg, cfg.attrs = cfg2.attrs →
        cfg.alphaFreqKeys = cfg2.alphaFreqKeys →
        cfg.thetaFreqKeys = cfg2.thetaFreqKeys →
        (check_config cfg).isSome = (check_config cfg2).isSome) ∧
    (∀ (cfg : Cfg) (inp : CycleInput) (s : LoopState) (ts : ℚ),
        s.last_ts = some ts →
        (inp.tslist.filter (fun t => ts < t)).length ≠ 0 →
        cfg.FEATURE_TYPE ≠ "THETA" → cfg.FEATURE_TYPE ≠ "ALPHA_THETA" →
        cycleBody cfg inp s = .error .nameError) ∧
    (∀ (cfg : Cfg) (inp : CycleInput) (s : LoopState) (ts : ℚ),
        s.last_ts = some ts →
        (inp.tslist.filter (fun t => ts < t)).length ≠ 0 →
        s.measured_psd_ratios ≠ [] →
        cfg.FEATURE_TYPE = "THETA" ∨ cfg.FEATURE_TYPE = "ALPHA_THETA" →
        cfg.MUSIC_MIX_STYLE ≠ "REPLACING" →
        cfg.MUSIC_MIX_STYLE ≠ "ADDITIVE_NEGATIVE" →
        cfg.MUSIC_MIX_STYLE ≠ "ADDITIVE_POSITIVE" →
        cycleBody cfg inp s = .error .valueError) := by
  refine ⟨?_, ?_, ?_⟩
  · intro cfg cfg2 h1 h2 h3
    unfold check_config
    rw [h1, h2, h3]
    exact isSome_if_some (apply_defaults cfg) (apply_defaults cfg2)
  · intro cfg inp s ts hts hlen h1 h2
    have hf : computeFeature cfg inp = none := by
      simp [computeFeature, h1, h2]
    simp [cycleBody, hts, hlen, hf]
  · intro cfg inp s ts hts hlen _hist_ne hft h1 h2 h3
    have hf : ∃ f, computeFeature cfg inp = some f := by
      rcases hft with h | h
      · exact ⟨compute_psd inp.psd_theta cfg.THETA_REF, by simp [computeFeature, h]⟩
      · exact ⟨compute_psd inp.psd_alpha cfg.ALPHA_REF / compute_psd inp.psd_theta cfg.THETA_REF,
          by simp [computeFeature, h]⟩
    obtain ⟨f, hf⟩ := hf
    have hne : nanFilter (add_to_queue s.measured_psd_ratios f) ≠ [] := by
      unfold add_to_queue
      rw [nanFilter_append]
      simp [nanFilter]
    obtain ⟨m, hm⟩ := npMax_isSome_of_ne_nil hne
    have hmix : ∀ v : ℚ, mix_sounds cfg.MUSIC_MIX_STYLE (s.vol1, s.vol2) v = none := by
      intro v
      simp [mix_sounds, h1, h2, h3]
    simp [cycleBody, hts, hlen, hf, feedbackStep, hm, hmix]

/-- Witness for `C4_amended`: `cfgBadEnums` and `cfgTheta` agree on all
presence information; a fresh cycle under `cfgBadEnums` (unrecognised
`FEATURE_TYPE`) raises `NameError`; a fresh cycle under `cfgBadMix`
(recognised `FEATURE_TYPE`, unrecognised `MUSIC_MIX_STYLE`) raises
`ValueError` in `mix_sounds`. -/
theorem C4_amended_witness :
    (check_config cfgBadEnums).isSome = (check_config cfgTheta).isSome ∧
    cycleBody cfgBadEnums inpB midState = .error .nameError ∧
    cycleBody cfgBadMix inpA midState = .error .valueError := by
  exact ⟨C4_amended.1 cfgBadEnums cfgTheta rfl rfl rfl,
    C4_amended.2.1 cfgBadEnums inpB midState 0 rfl (by decide) (by decide) (by decide),
    C4_amended.2.2 cfgBadMix inpA midState 0 rfl (by decide) (by decide)
      (Or.inl rfl) (by decide) (by decide) (by decide)⟩

/-- C5: the claim says no error arising inside a cycle terminates the
loop, and in particular that every variable read in the cycle body is
bound before first use.  `last_ts` is read at line 248 but first assigned
at line 286, and no handler surrounds the loop body, so for every
configuration, input and history size the very first cycle raises an
uncaught `NameError` that terminates the session. -/
theorem C5_first_cycle_uncaught_name_error (cfg : Cfg) (inp : CycleInput) (n : Nat) :
    cycleBody cfg inp (initState n) = .error .nameError := rfl

/-- C6: a cycle whose timestamp list has no entry strictly newer than the
bound last-seen timestamp logs exactly one warning, performs exactly one
`time.sleep(1)`, and leaves the feature history, the smoother's previous
value, the last-seen timestamp, the volumes and the pacing counter
unchanged. -/
theorem C6_stale_cycle_is_noop (cfg : Cfg) (inp : CycleInput) (s : LoopState) (ts : ℚ)
    (hts : s.last_ts = some ts) (hstale : ∀ t ∈ inp.tslist, t ≤ ts) :
    cycleBody cfg inp s =
      .ok { s with warnings := s.warnings + 1, staleSleeps := s.staleSleeps + 1 } := by
  have hfilter : inp.tslist.filter (fun t => ts < t) = [] := by
    rw [List.filter_eq_nil_iff]
    intro t ht
    simp only [decide_eq_true_eq]
    exact not_lt.mpr (hstale t ht)
  simp [cycleBody, hts, hfilter]

/-- Witness for `C6_stale_cycle_is_noop` on a concrete stale cycle. -/
theorem C6_witness :
    cycleBody cfgTheta staleInp staleState =
      .ok { last_ts := some 5
            last_ratio := some (1 / 2)
            measured_psd_ratios := [some 1, none]
            vol1 := 3 / 4
            vol2 := 1 / 4
            warnings := 3
            staleSleeps := 2
            paced := 3 } :=
  C6_stale_cycle_is_noop cfgTheta staleInp staleState 5 rfl (by decide)

/-- C7: the mixer with policy REPLACING sets the volumes to
`(ratio, 1 - ratio)`; ADDITIVE_NEGATIVE sets the second volume to
`1 - ratio` leaving the first unchanged; ADDITIVE_POSITIVE sets the
second volume to `ratio` leaving the first unchanged; every other policy
raises the unsupported-policy `ValueError` without setting any volume. -/
theorem C7_mix_sounds_policies (s1 s2 r : ℚ) :
    mix_sounds "REPLACING" (s1, s2) r = some (r, 1 - r) ∧
    mix_sounds "ADDITIVE_NEGATIVE" (s1, s2) r = some (s1, 1 - r) ∧
    mix_sounds "ADDITIVE_POSITIVE" (s1, s2) r = some (s1, r) ∧
    (∀ style : String, style ≠ "REPLACING" → style ≠ "ADDITIVE_NEGATIVE" →
        style ≠ "ADDITIVE_POSITIVE" → mix_sounds style (s1, s2) r = none) := by
  refine ⟨rfl, rfl, rfl, ?_⟩
  intro style h1 h2 h3
  simp [mix_sounds, h1, h2, h3]

/-- Witness for `C7_mix_sounds_policies` at an unrecognised policy. -/
theorem C7_witness : mix_sounds "FADE" ((1 : ℚ), (0 : ℚ)) (3 / 10) = none :=
  (C7_mix_sounds_policies 1 0 (3 / 10)).2.2.2 "FADE" (by decide) (by decide) (by decide)

/-- C8: the history length is read from the key `window_size_psd_max`
(line 235), which is neither in the required names nor in the defaulted
optional names; `check_config` never adds it — after validation it is
defined exactly when the raw configuration happened to define it — and
the accepted configuration built from exactly the required names does not
define it, so the initialisation reads an undefined value. -/
theorem C8_window_size_key_never_defined :
    "window_size_psd_max" ∉ critical_common ∧
    "window_size_psd_max" ∉ optional_var_names ∧
    (∀ cfg cfg2 : Cfg, check_config cfg = some cfg2 →
        ("window_size_psd_max" ∈ cfg2.attrs ↔ "window_size_psd_max" ∈ cfg.attrs)) ∧
    check_config cfgTheta = some (apply_defaults cfgTheta) ∧
    "window_size_psd_max" ∉ (apply_defaults cfgTheta).attrs := by
  refine ⟨by decide, by decide, ?_, rfl, by decide⟩
  intro cfg cfg2 h
  have hc : cfg2 = apply_defaults cfg := by
    unfold check_config at h
    split at h
    · exact (Option.some_inj.mp h).symm
    · exact absurd h (by simp)
  subst hc
  have hopt : "window_size_psd_max" ∉ optional_var_names := by decide
  simp [apply_defaults, List.mem_append, List.mem_filter, hopt]

/-- Witness for `C8_window_size_key_never_defined` at `cfgTheta`. -/
theorem C8_witness :
    "window_size_psd_max" ∈ (apply_defaults cfgTheta).attrs ↔
      "window_size_psd_max" ∈ cfgTheta.attrs :=
  C8_window_size_key_never_defined.2.2.1 cfgTheta (apply_defaults cfgTheta) rfl

/-- C9: the band-power estimate is the per-channel sum of PSD power over
the band's frequency axis, averaged across the channels, divided by the
band's reference scalar; the embedding is a pure function of the window's
PSD matrix and the reference, so it has no side effects and two calls on
identical input yield identical output. -/
theorem C9_band_power_formula (psd : List (List ℚ)) (ref : ℚ) :
    compute_psd psd ref = ((psd.map List.sum).sum / (psd.length : ℚ)) / ref ∧
    (∀ (psd2 : List (List ℚ)) (ref2 : ℚ), psd2 = psd → ref2 = ref →
        compute_psd psd2 ref2 = compute_psd psd ref) := by
  constructor
  · unfold compute_psd npMean
    rw [List.length_map]
  · intro psd2 ref2 h1 h2
    rw [h1, h2]

/-- Witness for `C9_band_power_formula` on a 2-channel, 2-frequency PSD. -/
theorem C9_witness :
    compute_psd [[1, 3], [2, 2]] 2 =
      ((([[1, 3], [2, 2]].map List.sum).sum / (([[1, 3], [2, 2]] : List (List ℚ)).length : ℚ)) / 2) ∧
    compute_psd [[1, 3], [2, 2]] 2 = compute_psd [[1, 3], [2, 2]] 2 := by
  have h := C9_band_power_formula [[1, 3], [2, 2]] 2
  exact ⟨h.1, h.2 [[1, 3], [2, 2]] 2 rfl rfl⟩

/-- C10: inserting into the nonempty feature-history buffer preserves its
length, shifts every kept slot one position toward the front, evicts
exactly the oldest slot, places the new value in the last slot; and the
maximum the normalisation uses is taken over only the non-missing slots:
when `np.max` over the NaN-filtered buffer returns `m`, `m` occupies a
non-missing slot and dominates every non-missing slot. -/
theorem C10_ring_buffer_invariants (xs : List (Option ℚ)) (x : ℚ) (h : xs ≠ []) :
    (add_to_queue xs x).length = xs.length ∧
    (∀ i : Nat, i + 1 < xs.length → (add_to_queue xs x)[i]? = xs[i + 1]?) ∧
    (add_to_queue xs x).getLast? = some (some x) ∧
    (∀ m : ℚ, npMax (nanFilter (add_to_queue xs x)) = some m →
        some m ∈ add_to_queue xs x ∧ ∀ y : ℚ, some y ∈ add_to_queue xs x → y ≤ m) := by
  have hpos : 0 < xs.length := List.length_pos.mpr h
  refine ⟨?_, ?_, ?_, ?_⟩
  · unfold add_to_queue
    rw [List.length_append, List.length_tail]
    simp
    omega
  · intro i hi
    unfold add_to_queue
    rw [List.getElem?_append_left (by rw [List.length_tail]; omega)]
    rw [List.getElem?_tail]
  · exact List.getLast?_concat xs.tail
  · intro m hm
    obtain ⟨hmem, hle⟩ := npMax_spec hm
    exact ⟨mem_nanFilter.mp hmem, fun y hy => hle y (mem_nanFilter.mpr hy)⟩

/-- Witness for `C10_ring_buffer_invariants` at buffer `[some 1, none]`
and new value `2`. -/
theorem C10_witness :
    (add_to_queue [some 1, none] 2).length = 2 ∧
    (add_to_queue [some 1, none] 2)[0]? = [some (1 : ℚ), none][1]? ∧
    (add_to_queue [some 1, none] 2).getLast? = some (some 2) ∧
    some (2 : ℚ) ∈ add_to_queue [some 1, none] 2 := by
  have h := C10_ring_buffer_invariants [some 1, none] 2 (by decide)
  exact ⟨h.1, h.2.1 0 (by decide), h.2.2.1, (h.2.2.2 2 (by decide)).1⟩

end NeuroFeedback
